import Mathlib

/-!
Shallow embedding of the mental-health chatbot session core (src/app.py).

Python strings are modelled as `List Char`; the mutable per-session
Streamlit state (`st.session_state`) is an explicit `Session` record.
The remote chat-completion call is modelled by passing its outcome in:
`apiKey : Option (List Char)` is the configured credential (or its absence)
and `requestResult : Except (List Char) (List Char)` is the outcome of the
HTTP POST — `Except.ok content` for a well-formed response whose
`choices[0].message.content` is `content`, and `Except.error e` for any
raised exception (network error, timeout, non-2xx status, malformed
payload).  UI rendering is out of scope; each screen is embedded as the
state transformation its event handlers perform.
-/

/-- Config constant `FREE_CHAT_LIMIT = 5` (src/app.py line 8). -/
def FREE_CHAT_LIMIT : Nat := 5

/-- Config constant `CRISIS_KEYWORDS` (src/app.py lines 9-13). -/
def CRISIS_KEYWORDS : List (List Char) := [
  ("suicide").data, ("kill myself").data, ("end my life").data, ("self harm").data,
  ("self-harm").data, ("harm others").data, ("hurt myself").data, ("abuse").data,
  ("danger").data, ("die").data, ("die by").data, ("plan to kill").data,
  ("plan to harm").data, ("thoughts of death").data]

/-- The system prompt string `SYSTEM_PROMPT` (src/app.py lines 19-29). -/
def SYSTEM_PROMPT : List Char :=
  ("You are a supportive, non-clinical wellness coach for everyday mental well-being in India. Do NOT answer questions unrelated to mental health or wellness, such as trivia, general knowledge, or unrelated topics. If asked about medical, legal, or diagnostic issues, do NOT provide advice. Instead, say: \"I\x27m not qualified to provide medical or legal advice. Please consult a professional for that.\" If a user asks off-topic questions, gently redirect them back by saying something like: \"Let\x27s focus on your mental well-being. How can I support you today?\" Always use empathetic, respectful, and simple language. Keep responses brief, supportive, and focused on psychoeducation, coping skills, or emotional support. If you detect any crisis or risk, follow crisis protocol immediately. ").data

/-- The dictionary `TOPIC_PROMPT_TEMPLATES` (src/app.py lines 31-68),
as an association list from topic name to prompt template. -/
def TOPIC_PROMPT_TEMPLATES : List (List Char × List Char) := [
  (("General").data,
   ("Write a warm, supportive welcome message for a mental health chatbot user. Include a gentle, uplifting quote about wellbeing. Then, invite the user empathetically to share what\x27s on their mind. Finally, suggest a simple grounding exercise or an option to talk, phrased naturally and conversationally. Do NOT include bullet points, numbered lists, or headings. Keep the tone human, friendly, and easy to read with natural paragraph breaks.").data),
  (("Relationship").data,
   ("Write a warm, empathetic welcome message about relationships. Start with a thoughtful quote on communication or boundaries. Invite the user to share recent experiences gently. Suggest a simple self-reflective question or exercise phrased naturally. Avoid bullet points or explicit headings. Use natural, human-like language and formatting.").data),
  (("Anxiety").data,
   ("Write a gentle, hopeful welcome message about coping with anxiety. Include a short quote about anxiety and validation of feelings. Invite the user to share what\x27s making them anxious. Offer a paced breathing exercise in a natural, friendly tone. Avoid lists or headings; write as a smooth, human conversation.").data),
  (("Stress").data,
   ("Write a supportive welcome message about managing stress. Begin with a calming quote. Validate their feelings and ask what is causing their stress today. Offer a brief check-in or micro-action in friendly, conversational language. Do not use bullet points or numbered lists.").data),
  (("Addiction").data,
   ("Write a compassionate welcome message addressing addiction challenges. Include an encouraging quote about small steps and progress. Gently invite the user to share recent hard moments. Offer a craving-management suggestion with consent phrased naturally. Keep the tone human and warm without lists or headings.").data)]

/-- The static generic welcome line returned by `get_topic_welcome` for an
unknown topic or an exception (src/app.py lines 74 and 88). -/
def STATIC_WELCOME : List Char := ("Welcome! How can I support you today?").data

/-- The string `openrouter_chat_api` returns when no API key is configured
(src/app.py line 104). -/
def NO_KEY_MESSAGE : List Char := ("Error: No API key.").data

/-- The string `openrouter_chat_api` returns when the HTTP request raises
any exception (src/app.py line 126). -/
def API_FALLBACK : List Char := ("Sorry, something went wrong communicating with the chat service.").data

/-- Message roles; Python uses the strings "system", "user", "assistant". -/
inductive Role where
  | system
  | user
  | assistant
deriving DecidableEq

/-- A conversation entry, Python dict `\x7b"role": ..., "content": ...\x7d`
(src/app.py line 140). -/
structure Message where
  role : Role
  content : List Char
deriving DecidableEq

/-- The per-session Streamlit state initialised by `initialize_session_state`
(src/app.py lines 132-149).  `wallet_credits` is an `Int` because the Python
value is a plain integer kept non-negative only by the `max(0, ...)` floor. -/
structure Session where
  logged_in : Bool
  username : List Char
  topic : Option (List Char)
  conversation : List Message
  wallet_credits : Int
  chats_used : Nat
  crisis_mode : Bool
  topic_welcome_shown : Bool
deriving DecidableEq

/-- Python `str.strip()`: remove leading and trailing whitespace. -/
def pyStrip (s : List Char) : List Char :=
  ((s.dropWhile Char.isWhitespace).reverse.dropWhile Char.isWhitespace).reverse

/-- Function `contains_crisis_keywords` (src/app.py lines 128-130):
lower-case the text, then test each keyword for substring containment
(Python `k in text_lower`). -/
def contains_crisis_keywords (text : List Char) : Bool :=
  CRISIS_KEYWORDS.any fun k => decide (k <:+: text.map Char.toLower)

/-- Function `openrouter_chat_api` (src/app.py lines 97-126).  The
`messages` payload is sent on the wire and does not affect the returned
value, which the embedding takes from the modelled call outcome.  Every
exception raised by the request (timeout, network error, bad status,
malformed JSON, missing `choices` path) is raised inside the `try` block
and caught by the `except` on line 124, so this function never raises:
it returns `NO_KEY_MESSAGE` when no key is configured, the extracted
content on success, and `API_FALLBACK` on any request failure. -/
def openrouter_chat_api (messages : List Message) (apiKey : Option (List Char))
    (requestResult : Except (List Char) (List Char)) : List Char :=
  match messages, apiKey with
  | _, none => NO_KEY_MESSAGE
  | _, some _ =>
    match requestResult with
    | Except.ok content => content
    | Except.error _ => API_FALLBACK

/-- Function `get_topic_welcome` (src/app.py lines 72-88).  For a topic
outside `TOPIC_PROMPT_TEMPLATES` it returns the static welcome line.
Otherwise it calls `openrouter_chat_api`; the surrounding
`try ... except` would return the static welcome line only if that call
raised, which it never does (all its failure modes are caught internally),
so in the embedding the client result is returned directly. -/
def get_topic_welcome (topic : List Char) (apiKey : Option (List Char))
    (requestResult : Except (List Char) (List Char)) : List Char :=
  match TOPIC_PROMPT_TEMPLATES.lookup topic with
  | none => STATIC_WELCOME
  | some prompt =>
    openrouter_chat_api
      [⟨Role.system, SYSTEM_PROMPT⟩, ⟨Role.user, prompt⟩] apiKey requestResult

/-- Function `initialize_session_state` (src/app.py lines 132-149): the
fresh session state when no keys are present. -/
def initialize_session_state : Session :=
  { logged_in := false
    username := []
    topic := none
    conversation := []
    wallet_credits := (FREE_CHAT_LIMIT : Int)
    chats_used := 0
    crisis_mode := false
    topic_welcome_shown := false }

/-- The five topic button labels of `topic_selection_screen`
(src/app.py line 166). -/
def topics : List (List Char) := [
  ("General").data, ("Relationship").data, ("Anxiety").data,
  ("Stress").data, ("Addiction").data]

/-- The topic-button handler of `topic_selection_screen`
(src/app.py lines 167-177): set the topic, replace the conversation with
the system prompt followed by the assistant welcome, clear crisis mode. -/
def topic_selection_screen (s : Session) (topic : List Char)
    (apiKey : Option (List Char))
    (requestResult : Except (List Char) (List Char)) : Session :=
  { s with
    topic := some topic
    conversation := [⟨Role.system, SYSTEM_PROMPT⟩,
      ⟨Role.assistant, get_topic_welcome topic apiKey requestResult⟩]
    crisis_mode := false
    topic_welcome_shown := true }

/-- Function `add_credit` (src/app.py lines 211-213). -/
def add_credit (s : Session) : Session :=
  { s with wallet_credits := s.wallet_credits + 1 }

/-- The usage-recording tail of a completed send (src/app.py lines
271-273), the spec Credit Ledger operation `record_chat()`: increment
`chats_used`; if the new count exceeds `FREE_CHAT_LIMIT`, decrement the
wallet floored at 0. -/
def record_chat (s : Session) : Session :=
  let s1 := { s with chats_used := s.chats_used + 1 }
  if FREE_CHAT_LIMIT < s1.chats_used then
    { s1 with wallet_credits := max 0 (s1.wallet_credits - 1) }
  else s1

/-- The Send-button handler body of `chat_screen` (src/app.py lines
252-277), reached when the button is clicked with non-blank input:
append the stripped user message; on a crisis keyword set crisis mode and
stop (no API call); on the free-limit-and-no-credit check stop (no API
call); otherwise call the API, append the assistant reply and record the
chat.  The returned `Bool` is `true` iff `openrouter_chat_api` was called. -/
def send_message_handler (s : Session) (user_input : List Char)
    (apiKey : Option (List Char))
    (requestResult : Except (List Char) (List Char)) : Session × Bool :=
  let s1 := { s with
    conversation := s.conversation ++ [⟨Role.user, pyStrip user_input⟩] }
  if contains_crisis_keywords user_input then
    ({ s1 with crisis_mode := true }, false)
  else if FREE_CHAT_LIMIT ≤ s1.chats_used ∧ s1.wallet_credits ≤ 0 then
    (s1, false)
  else
    let bot_response := openrouter_chat_api s1.conversation apiKey requestResult
    let s2 := { s1 with
      conversation := s1.conversation ++ [⟨Role.assistant, bot_response⟩] }
    (record_chat s2, true)

/-- A send attempt against the full `chat_screen` (src/app.py lines
215-277).  Before any input widget is rendered the screen returns early
when `crisis_mode` is set (line 227) or when `wallet_credits <= 0`
(line 234); in those states no send can happen and the state is
unchanged.  A click with blank input is a no-op (line 252).  Otherwise
the Send handler runs.  The `Bool` is `true` iff a chat-completion call
was issued. -/
def chat_screen_step (s : Session) (user_input : List Char)
    (apiKey : Option (List Char))
    (requestResult : Except (List Char) (List Char)) : Session × Bool :=
  if s.crisis_mode then (s, false)
  else if s.wallet_credits ≤ 0 then (s, false)
  else if pyStrip user_input = [] then (s, false)
  else send_message_handler s user_input apiKey requestResult

/-- Function `reset_session` (src/app.py lines 279-287): it deletes every
session key, after which the next run of `initialize_session_state`
restores all defaults, so its net effect is the fresh session state. -/
def reset_session : Session := initialize_session_state

/-- Modelled from the spec: the Credit Ledger predicate `can_chat()`
(`true iff chats_used < Q OR balance > 0`).  The source has no such
function; this definition follows the spec words so the code gating can
be compared against it. -/
def can_chat (s : Session) : Bool :=
  decide (s.chats_used < FREE_CHAT_LIMIT) || decide ((0 : Int) < s.wallet_credits)

/-- One user action processed by `main` (src/app.py lines 289-302): the
screen dispatched on the current state handles the event. -/
inductive Step : Session → Session → Prop where
  | login (s : Session) (username : List Char)
      (hlo : s.logged_in = false) (hne : pyStrip username ≠ []) :
      Step s { s with username := pyStrip username, logged_in := true }
  | pick_topic (s : Session) (t : List Char) (apiKey : Option (List Char))
      (res : Except (List Char) (List Char))
      (hli : s.logged_in = true) (hto : s.topic = none) (ht : t ∈ topics) :
      Step s (topic_selection_screen s t apiKey res)
  | send (s : Session) (t user_input : List Char) (apiKey : Option (List Char))
      (res : Except (List Char) (List Char))
      (hli : s.logged_in = true) (hto : s.topic = some t) :
      Step s (chat_screen_step s user_input apiKey res).fst
  | watch_ad (s : Session) (t : List Char)
      (hli : s.logged_in = true) (hto : s.topic = some t)
      (hcr : s.crisis_mode = false) (hcred : s.wallet_credits ≤ 0) :
      Step s (add_credit s)
  | logout (s : Session) (t : List Char)
      (hli : s.logged_in = true) (hto : s.topic = some t)
      (hend : s.crisis_mode = true ∨ s.wallet_credits ≤ 0) :
      Step s reset_session

/-- Session states reachable from a fresh session. -/
inductive Reachable : Session → Prop where
  | init : Reachable initialize_session_state
  | step {s s2 : Session} : Reachable s → Step s s2 → Reachable s2

/-- A concrete post-login state: fresh session after logging in as Alex. -/
def post_login_state : Session :=
  { initialize_session_state with
    username := pyStrip (("Alex").data), logged_in := true }

/-- A concrete started chat: Alex picked the Anxiety topic with no API key
configured. -/
def started_state : Session :=
  topic_selection_screen post_login_state (("Anxiety").data) none (Except.error [])

/-- A send attempt with fixed benign input and a succeeding chat call,
used to exercise the credit ledger. -/
def demo_send (s : Session) : Session × Bool :=
  chat_screen_step s (("hello").data) (some (("key").data)) (Except.ok (("ok").data))

/-- The session after n consecutive send attempts from `started_state`. -/
def demo_run : Nat → Session
  | 0 => started_state
  | n + 1 => (demo_send (demo_run n)).fst

/-- Appending on the right preserves a known head. -/
lemma head?_append_of_some {α : Type} {l l2 : List α} {x : α}
    (h : l.head? = some x) : (l ++ l2).head? = some x := by
  cases l with
  | nil => simp at h
  | cons a t => simpa using h

/-- The state invariant maintained by every reachable session: the wallet
is non-negative, a drained wallet implies the free quota was used up, and
once a topic is set the conversation starts with the system prompt. -/
def SessionInv (s : Session) : Prop :=
  0 ≤ s.wallet_credits ∧
  (s.wallet_credits ≤ 0 → FREE_CHAT_LIMIT ≤ s.chats_used) ∧
  (s.topic ≠ none → s.conversation.head? = some ⟨Role.system, SYSTEM_PROMPT⟩)

/-- Case analysis of a send attempt: unchanged state, crisis transition,
blocked-but-appended message, or a completed send (which requires a
positive wallet because of the screen-level gate). -/
lemma chat_screen_step_cases (s : Session) (input : List Char)
    (k : Option (List Char)) (res : Except (List Char) (List Char)) :
    (chat_screen_step s input k res).fst = s ∨
    ((chat_screen_step s input k res).fst =
      { s with conversation := s.conversation ++ [⟨Role.user, pyStrip input⟩],
               crisis_mode := true }) ∨
    ((chat_screen_step s input k res).fst =
      { s with conversation := s.conversation ++ [⟨Role.user, pyStrip input⟩] }) ∨
    (0 < s.wallet_credits ∧ (chat_screen_step s input k res).fst =
      record_chat { s with conversation :=
        s.conversation ++ [⟨Role.user, pyStrip input⟩] ++
          [⟨Role.assistant, openrouter_chat_api
            (s.conversation ++ [⟨Role.user, pyStrip input⟩]) k res⟩] }) := by
  by_cases h1 : s.crisis_mode = true
  · exact Or.inl (by simp [chat_screen_step, h1])
  · by_cases h2 : s.wallet_credits ≤ 0
    · exact Or.inl (by simp [chat_screen_step, h1, h2])
    · by_cases h3 : pyStrip input = []
      · exact Or.inl (by simp [chat_screen_step, h1, h2, h3])
      · by_cases h4 : contains_crisis_keywords input = true
        · refine Or.inr (Or.inl ?_)
          simp [chat_screen_step, send_message_handler, h1, h2, h3, h4]
        · by_cases h5 : FREE_CHAT_LIMIT ≤ s.chats_used ∧ s.wallet_credits ≤ 0
          · exact absurd h5.2 h2
          · refine Or.inr (Or.inr (Or.inr ⟨by omega, ?_⟩))
            simp [chat_screen_step, send_message_handler, h1, h2, h3, h4, h5]

/-- Each processed user action preserves the session invariant. -/
lemma step_preserves_inv {s s2 : Session} (hs : SessionInv s)
    (h : Step s s2) : SessionInv s2 := by
  obtain ⟨hc, hq, hh⟩ := hs
  cases h with
  | login u h1 h2 => exact ⟨hc, hq, hh⟩
  | pick_topic t k res h1 h2 h3 => exact ⟨hc, hq, fun _ => rfl⟩
  | watch_ad t h1 h2 h3 h4 =>
    exact ⟨by simp [add_credit]; omega, fun hle => by simp [add_credit] at hle; omega,
      fun ht => hh ht⟩
  | logout t h1 h2 h3 => exact ⟨by decide, by decide, by decide⟩
  | send t input k res h1 h2 =>
    rcases chat_screen_step_cases s input k res with he | he | he | ⟨hpos, he⟩
    · rw [he]; exact ⟨hc, hq, hh⟩
    · rw [he]; exact ⟨hc, hq, fun ht => head?_append_of_some (hh ht)⟩
    · rw [he]; exact ⟨hc, hq, fun ht => head?_append_of_some (hh ht)⟩
    · rw [he]
      simp only [record_chat]
      split
      · rename_i hgt
        have hgt2 : FREE_CHAT_LIMIT < s.chats_used + 1 := hgt
        refine ⟨le_max_left _ _, fun _ => ?_,
          fun ht => head?_append_of_some (head?_append_of_some (hh ht))⟩
        show FREE_CHAT_LIMIT ≤ s.chats_used + 1
        omega
      · rename_i hgt
        refine ⟨hc, fun hle => ?_,
          fun ht => head?_append_of_some (head?_append_of_some (hh ht))⟩
        have hle2 : s.wallet_credits ≤ 0 := hle
        exact absurd hpos (by omega)

/-- Every reachable session satisfies the invariant. -/
lemma reachable_inv {s : Session} (h : Reachable s) : SessionInv s := by
  induction h with
  | init => exact ⟨by decide, by decide, by decide⟩
  | step hr hst ih => exact step_preserves_inv ih hst

/-- The started chat is reachable: fresh session, login as Alex, pick the
Anxiety topic. -/
lemma started_reachable : Reachable started_state :=
  Reachable.step
    (Reachable.step Reachable.init
      (Step.login initialize_session_state (("Alex").data) rfl (by decide)))
    (Step.pick_topic post_login_state (("Anxiety").data) none (Except.error [])
      rfl rfl (by decide))

/-- C4: `contains_crisis_keywords` is a pure function of its input; it
returns true exactly when some text fragment whose lower-casing is one of
the fixed crisis terms occurs contiguously in the input, and it returns
false on the empty string. -/
theorem contains_crisis_keywords_spec (text : List Char) :
    (contains_crisis_keywords text = true ↔
      ∃ t k, k ∈ CRISIS_KEYWORDS ∧ t <:+: text ∧ t.map Char.toLower = k) ∧
    contains_crisis_keywords [] = false := by
  refine ⟨?_, by decide⟩
  rw [contains_crisis_keywords, List.any_eq_true]
  constructor
  · rintro ⟨k, hk, hdec⟩
    rw [decide_eq_true_iff] at hdec
    rcases List.isInfix_map_iff.mp hdec with ⟨t, ht, hte⟩
    exact ⟨t, k, hk, ht, hte.symm⟩
  · rintro ⟨t, k, hk, ht, hte⟩
    refine ⟨k, hk, ?_⟩
    rw [decide_eq_true_iff, ← hte]
    exact ht.map Char.toLower

/-- C5: a send in the chatting state whose raw text matches a crisis term
appends the stripped user message, sets crisis mode, and issues no
chat-completion call. -/
theorem crisis_send_no_api_call (s : Session) (input : List Char)
    (k : Option (List Char)) (res : Except (List Char) (List Char))
    (hcr : s.crisis_mode = false) (hcred : 0 < s.wallet_credits)
    (hne : pyStrip input ≠ []) (hkw : contains_crisis_keywords input = true) :
    chat_screen_step s input k res =
      ({ s with conversation := s.conversation ++ [⟨Role.user, pyStrip input⟩],
                crisis_mode := true }, false) := by
  have h2 : ¬ s.wallet_credits ≤ 0 := by omega
  simp [chat_screen_step, send_message_handler, hcr, h2, hne, hkw]

/-- Witness for C5: sending "I want to kill myself" from the started chat
appends the message, sets crisis mode, and makes no call. -/
theorem crisis_send_no_api_call_witness :
    chat_screen_step started_state (("I want to kill myself").data) none
      (Except.error []) =
      ({ started_state with
         conversation := started_state.conversation ++
           [⟨Role.user, pyStrip (("I want to kill myself").data)⟩],
         crisis_mode := true }, false) :=
  crisis_send_no_api_call started_state (("I want to kill myself").data) none
    (Except.error []) (by decide) (by decide) (by decide) (by decide)

/-- C6: picking any of the five fixed topics replaces the conversation by
exactly the system prompt followed by the assistant welcome, and clears
crisis mode. -/
theorem topic_selection_resets_conversation (s : Session) (t : List Char)
    (k : Option (List Char)) (res : Except (List Char) (List Char))
    (_ht : t ∈ topics) :
    (topic_selection_screen s t k res).conversation =
      [⟨Role.system, SYSTEM_PROMPT⟩, ⟨Role.assistant, get_topic_welcome t k res⟩] ∧
    (topic_selection_screen s t k res).conversation.length = 2 ∧
    (topic_selection_screen s t k res).crisis_mode = false ∧
    (topic_selection_screen s t k res).topic = some t :=
  ⟨rfl, rfl, rfl, rfl⟩

/-- Witness for C6 at the General topic from a fresh session. -/
theorem topic_selection_resets_conversation_witness :
    ("General").data ∈ topics ∧
    (topic_selection_screen initialize_session_state (("General").data) none
      (Except.error [])).conversation.length = 2 ∧
    (topic_selection_screen initialize_session_state (("General").data) none
      (Except.error [])).crisis_mode = false :=
  ⟨by decide,
   (topic_selection_resets_conversation initialize_session_state (("General").data)
     none (Except.error []) (by decide)).2.1,
   (topic_selection_resets_conversation initialize_session_state (("General").data)
     none (Except.error []) (by decide)).2.2.1⟩

/-- C7: in every reachable state with a topic set, the conversation head
is the system-prompt message; reachability quantifies over all operation
sequences, so every operation preserves the invariant. -/
theorem conversation_head_is_system_prompt (s : Session) (h : Reachable s)
    (ht : s.topic ≠ none) :
    s.conversation.head? = some ⟨Role.system, SYSTEM_PROMPT⟩ :=
  (reachable_inv h).2.2 ht

/-- Witness for C7 at the reachable started chat. -/
theorem conversation_head_is_system_prompt_witness :
    started_state.conversation.head? = some ⟨Role.system, SYSTEM_PROMPT⟩ :=
  conversation_head_is_system_prompt started_state started_reachable (by decide)

/-- C3: on every reachable state the wallet is non-negative, and
`record_chat` increments the counter and decrements the wallet floored at
0 exactly when the incremented count exceeds the free quota, leaving the
wallet unchanged otherwise; the result is again non-negative. -/
theorem credits_nonneg_and_record_chat_policy (s : Session) (h : Reachable s) :
    0 ≤ s.wallet_credits ∧
    (record_chat s).chats_used = s.chats_used + 1 ∧
    (record_chat s).wallet_credits =
      (if FREE_CHAT_LIMIT < s.chats_used + 1 then max 0 (s.wallet_credits - 1)
       else s.wallet_credits) ∧
    (s.chats_used + 1 ≤ FREE_CHAT_LIMIT →
      (record_chat s).wallet_credits = s.wallet_credits) ∧
    0 ≤ (record_chat s).wallet_credits := by
  have h1 := (reachable_inv h).1
  have hcu : (record_chat s).chats_used = s.chats_used + 1 := by
    simp only [record_chat]
    split <;> rfl
  have hwc : (record_chat s).wallet_credits =
      (if FREE_CHAT_LIMIT < s.chats_used + 1 then max 0 (s.wallet_credits - 1)
       else s.wallet_credits) := by
    simp only [record_chat]
    split <;> rfl
  refine ⟨h1, hcu, hwc, fun hle => ?_, ?_⟩
  · rw [hwc, if_neg (by omega)]
  · rw [hwc]
    split
    · exact le_max_left _ _
    · exact h1

/-- Witness for C3 at the fresh session. -/
theorem credits_nonneg_and_record_chat_policy_witness :
    0 ≤ initialize_session_state.wallet_credits ∧
    (record_chat initialize_session_state).chats_used =
      initialize_session_state.chats_used + 1 ∧
    (record_chat initialize_session_state).wallet_credits =
      (if FREE_CHAT_LIMIT < initialize_session_state.chats_used + 1 then
        max 0 (initialize_session_state.wallet_credits - 1)
       else initialize_session_state.wallet_credits) ∧
    (initialize_session_state.chats_used + 1 ≤ FREE_CHAT_LIMIT →
      (record_chat initialize_session_state).wallet_credits =
        initialize_session_state.wallet_credits) ∧
    0 ≤ (record_chat initialize_session_state).wallet_credits :=
  credits_nonneg_and_record_chat_policy initialize_session_state Reachable.init

/-- C8: when the configured chat call raises (timeout or any other request
failure), the send still completes without exception: the appended
assistant reply is the fixed fallback string, the counter increments and
the wallet is decremented per the normal policy. -/
theorem api_failure_send_completes (s : Session) (input k e : List Char)
    (hcr : s.crisis_mode = false) (hcred : 0 < s.wallet_credits)
    (hne : pyStrip input ≠ []) (hkw : contains_crisis_keywords input = false) :
    (chat_screen_step s input (some k) (Except.error e)).snd = true ∧
    (chat_screen_step s input (some k) (Except.error e)).fst.conversation =
      s.conversation ++ [⟨Role.user, pyStrip input⟩] ++
        [⟨Role.assistant, API_FALLBACK⟩] ∧
    (chat_screen_step s input (some k) (Except.error e)).fst.chats_used =
      s.chats_used + 1 ∧
    (chat_screen_step s input (some k) (Except.error e)).fst.wallet_credits =
      (if FREE_CHAT_LIMIT < s.chats_used + 1 then max 0 (s.wallet_credits - 1)
       else s.wallet_credits) := by
  have h2 : ¬ s.wallet_credits ≤ 0 := by omega
  have h5 : ¬ (FREE_CHAT_LIMIT ≤ s.chats_used ∧ s.wallet_credits ≤ 0) := by omega
  have hstep : chat_screen_step s input (some k) (Except.error e) =
      (record_chat { s with conversation :=
          s.conversation ++ [⟨Role.user, pyStrip input⟩] ++
            [⟨Role.assistant, API_FALLBACK⟩] }, true) := by
    simp [chat_screen_step, send_message_handler, hcr, h2, hne, hkw, h5,
      openrouter_chat_api]
  rw [hstep]
  refine ⟨rfl, ?_, ?_, ?_⟩
  · simp only [record_chat]
    split <;> rfl
  · simp only [record_chat]
    split <;> rfl
  · simp only [record_chat]
    split <;> rfl

/-- Witness for C8: a timed-out call from the started chat still
completes the send with the fallback reply. -/
theorem api_failure_send_completes_witness :
    (chat_screen_step started_state (("hello").data) (some (("key").data))
      (Except.error (("timeout").data))).snd = true ∧
    (chat_screen_step started_state (("hello").data) (some (("key").data))
      (Except.error (("timeout").data))).fst.conversation =
      started_state.conversation ++ [⟨Role.user, pyStrip (("hello").data)⟩] ++
        [⟨Role.assistant, API_FALLBACK⟩] ∧
    (chat_screen_step started_state (("hello").data) (some (("key").data))
      (Except.error (("timeout").data))).fst.chats_used =
      started_state.chats_used + 1 ∧
    (chat_screen_step started_state (("hello").data) (some (("key").data))
      (Except.error (("timeout").data))).fst.wallet_credits =
      (if FREE_CHAT_LIMIT < started_state.chats_used + 1 then
        max 0 (started_state.wallet_credits - 1)
       else started_state.wallet_credits) :=
  api_failure_send_completes started_state (("hello").data) (("key").data)
    (("timeout").data) (by decide) (by decide) (by decide) (by decide)

/-- C9: the Send handler blocked by credit exhaustion appends exactly the
one (unanswered) user message and changes nothing else: counter, wallet,
crisis flag, topic and username are untouched, so the session stays in
the chatting state. -/
theorem blocked_send_frame (s : Session) (input : List Char)
    (k : Option (List Char)) (res : Except (List Char) (List Char))
    (hq : FREE_CHAT_LIMIT ≤ s.chats_used) (hcred : s.wallet_credits ≤ 0)
    (hkw : contains_crisis_keywords input = false) :
    send_message_handler s input k res =
      ({ s with conversation := s.conversation ++ [⟨Role.user, pyStrip input⟩] },
        false) ∧
    (send_message_handler s input k res).fst.conversation.length =
      s.conversation.length + 1 ∧
    (send_message_handler s input k res).fst.chats_used = s.chats_used ∧
    (send_message_handler s input k res).fst.wallet_credits = s.wallet_credits ∧
    (send_message_handler s input k res).fst.crisis_mode = s.crisis_mode ∧
    (send_message_handler s input k res).fst.topic = s.topic ∧
    (send_message_handler s input k res).fst.username = s.username := by
  have hb : send_message_handler s input k res =
      ({ s with conversation := s.conversation ++ [⟨Role.user, pyStrip input⟩] },
        false) := by
    simp [send_message_handler, hkw, hq, hcred]
  rw [hb]
  exact ⟨rfl, by simp, rfl, rfl, rfl, rfl, rfl⟩

/-- A chatting state at the free limit with a drained wallet, the spec
scenario chats_used = 5 = Q, balance = 0. -/
def exhausted_chat_state : Session :=
  { started_state with chats_used := 5, wallet_credits := 0 }

/-- Witness for C9 at the exhausted state. -/
theorem blocked_send_frame_witness :
    send_message_handler exhausted_chat_state (("hello").data) none
      (Except.error []) =
      ({ exhausted_chat_state with conversation :=
          exhausted_chat_state.conversation ++
            [⟨Role.user, pyStrip (("hello").data)⟩] }, false) ∧
    (send_message_handler exhausted_chat_state (("hello").data) none
      (Except.error [])).fst.conversation.length =
      exhausted_chat_state.conversation.length + 1 ∧
    (send_message_handler exhausted_chat_state (("hello").data) none
      (Except.error [])).fst.chats_used = exhausted_chat_state.chats_used ∧
    (send_message_handler exhausted_chat_state (("hello").data) none
      (Except.error [])).fst.wallet_credits =
      exhausted_chat_state.wallet_credits ∧
    (send_message_handler exhausted_chat_state (("hello").data) none
      (Except.error [])).fst.crisis_mode = exhausted_chat_state.crisis_mode ∧
    (send_message_handler exhausted_chat_state (("hello").data) none
      (Except.error [])).fst.topic = exhausted_chat_state.topic ∧
    (send_message_handler exhausted_chat_state (("hello").data) none
      (Except.error [])).fst.username = exhausted_chat_state.username :=
  blocked_send_frame exhausted_chat_state (("hello").data) none (Except.error [])
    (by decide) (by decide) (by decide)

/-- A session whose ledger has chats_used = 0 inside the free quota but a
drained wallet; such a ledger state is what C1 quantifies over. -/
def zero_credit_fresh : Session :=
  { initialize_session_state with
    logged_in := true
    username := ("Alex").data
    topic := some (("General").data)
    conversation := [⟨Role.system, SYSTEM_PROMPT⟩]
    wallet_credits := 0 }

/-- C1 counterexample: at the ledger state chats_used = 0 < Q with
balance 0 the spec predicate can_chat is true, yet the chat screen blocks
the send (the credit gate on line 234 fires before any send widget is
rendered): the attempt changes nothing and issues no call, so the screen
does not block exactly when can_chat is false. -/
theorem chat_gate_deviates_from_can_chat :
    zero_credit_fresh.chats_used = 0 ∧
    zero_credit_fresh.chats_used < FREE_CHAT_LIMIT ∧
    can_chat zero_credit_fresh = true ∧
    chat_screen_step zero_credit_fresh (("hello").data) (some (("key").data))
      (Except.ok (("hi").data)) = (zero_credit_fresh, false) ∧
    (chat_screen_step zero_credit_fresh (("hello").data) (some (("key").data))
      (Except.ok (("hi").data))).snd = false :=
  ⟨rfl, by decide, by decide, rfl, rfl⟩

/-- C1 amended: on reachable states (where a drained wallet implies the
quota is used up) the gating does follow the Credit Ledger contract: a
non-crisis send issues the chat call iff can_chat is true, and the Send
handler explicit block condition equals can_chat = false in every state. -/
theorem reachable_block_iff_not_can_chat (s : Session) (input : List Char)
    (k : Option (List Char)) (res : Except (List Char) (List Char))
    (h : Reachable s) (hcr : s.crisis_mode = false)
    (hne : pyStrip input ≠ []) (hkw : contains_crisis_keywords input = false) :
    ((chat_screen_step s input k res).snd = true ↔ can_chat s = true) ∧
    ((FREE_CHAT_LIMIT ≤ s.chats_used ∧ s.wallet_credits ≤ 0) ↔
      can_chat s = false) := by
  have hinv := reachable_inv h
  constructor
  · by_cases h2 : s.wallet_credits ≤ 0
    · have hq : FREE_CHAT_LIMIT ≤ s.chats_used := hinv.2.1 h2
      have hsnd : (chat_screen_step s input k res).snd = false := by
        simp [chat_screen_step, hcr, h2]
      have hcc : can_chat s = false := by
        simp only [can_chat, Bool.or_eq_false_iff, decide_eq_false_iff_not]
        omega
      rw [hsnd, hcc]
    · have h5 : ¬ (FREE_CHAT_LIMIT ≤ s.chats_used ∧ s.wallet_credits ≤ 0) := by
        omega
      have hsnd : (chat_screen_step s input k res).snd = true := by
        simp [chat_screen_step, send_message_handler, hcr, h2, hne, hkw, h5]
      have hcc : can_chat s = true := by
        simp only [can_chat, Bool.or_eq_true, decide_eq_true_iff]
        omega
      rw [hsnd, hcc]
  · simp only [can_chat, Bool.or_eq_false_iff, decide_eq_false_iff_not]
    omega

/-- Witness for the amended C1 at the reachable started chat. -/
theorem reachable_block_iff_not_can_chat_witness :
    ((chat_screen_step started_state (("hello").data) none
      (Except.error [])).snd = true ↔ can_chat started_state = true) ∧
    ((FREE_CHAT_LIMIT ≤ started_state.chats_used ∧
      started_state.wallet_credits ≤ 0) ↔ can_chat started_state = false) :=
  reachable_block_iff_not_can_chat started_state (("hello").data) none
    (Except.error []) started_reachable (by decide) (by decide) (by decide)

/-- C2 counterexample: when the chat call made during topic selection
fails (here a request error with a key configured), the welcome seeded
into the conversation is the client fallback string, which differs from
the static generic welcome line. -/
theorem welcome_on_failure_not_generic :
    get_topic_welcome (("Anxiety").data) (some (("key").data))
      (Except.error (("timeout").data)) = API_FALLBACK ∧
    (topic_selection_screen post_login_state (("Anxiety").data)
      (some (("key").data)) (Except.error (("timeout").data))).conversation =
      [⟨Role.system, SYSTEM_PROMPT⟩, ⟨Role.assistant, API_FALLBACK⟩] ∧
    API_FALLBACK ≠ STATIC_WELCOME :=
  ⟨rfl, rfl, by decide⟩

/-- C2 amended: for every fixed topic, a failing chat call seeds the
client-side fallback line, and a missing credential seeds the no-key
error line; neither equals the static generic welcome, which is reserved
for topics outside the template table (and for the dead except branch of
get_topic_welcome, unreachable because openrouter_chat_api catches all
its failures internally). -/
theorem welcome_on_failure_is_client_fallback (t : List Char) (ht : t ∈ topics)
    (k e : List Char) (res : Except (List Char) (List Char)) :
    get_topic_welcome t (some k) (Except.error e) = API_FALLBACK ∧
    get_topic_welcome t none res = NO_KEY_MESSAGE ∧
    API_FALLBACK ≠ STATIC_WELCOME ∧
    NO_KEY_MESSAGE ≠ STATIC_WELCOME := by
  fin_cases ht <;> exact ⟨rfl, rfl, by decide, by decide⟩

/-- Witness for the amended C2 at the General topic. -/
theorem welcome_on_failure_is_client_fallback_witness :
    get_topic_welcome (("General").data) (some (("key").data))
      (Except.error (("timeout").data)) = API_FALLBACK ∧
    get_topic_welcome (("General").data) none (Except.error (("timeout").data)) =
      NO_KEY_MESSAGE ∧
    API_FALLBACK ≠ STATIC_WELCOME ∧
    NO_KEY_MESSAGE ≠ STATIC_WELCOME :=
  welcome_on_failure_is_client_fallback (("General").data) (by decide)
    (("key").data) (("timeout").data) (Except.error (("timeout").data))

set_option maxRecDepth 8192 in
/-- C10: a fresh session holds wallet_credits = FREE_CHAT_LIMIT = 5 and
chats_used = 0, and from a started chat exactly ten consecutive sends
complete (each issuing a call) before the eleventh attempt is blocked
with the state unchanged. -/
theorem initial_credits_ten_chats :
    initialize_session_state.wallet_credits = (FREE_CHAT_LIMIT : Int) ∧
    FREE_CHAT_LIMIT = 5 ∧
    initialize_session_state.chats_used = 0 ∧
    started_state.wallet_credits = (FREE_CHAT_LIMIT : Int) ∧
    started_state.chats_used = 0 ∧
    ((List.range 10).all fun i => (demo_send (demo_run i)).snd) = true ∧
    (demo_run 10).chats_used = 10 ∧
    (demo_run 10).wallet_credits = 0 ∧
    (demo_send (demo_run 10)).snd = false ∧
    (demo_send (demo_run 10)).fst = demo_run 10 :=
  ⟨rfl, rfl, rfl, by decide, by decide, by decide, by decide, by decide,
    by decide, by decide⟩
